import Mathlib

/-!
Shallow embedding of the reconciliation core of the `taux-de-sortie`
repository (an Express + SQLite sell-through tracker for a Shopify shop).

Conventions used throughout:
* External identifiers (variant ids, inventory item ids, location ids) are
  modelled as `String`; SQL NULL-able columns become `Option`.
* The JavaScript conversion `String(x)` applied to a possibly-null key is
  `jsStringOfOpt` (in JS, `String(null)` is the four-letter string "null").
* Timestamps (`new Date().toISOString()`) are abstracted as `Nat` instants
  supplied by the caller; the routes only store and compare them.
* Machine integers are modelled as `Int` (SQLite INTEGER); quantities read
  from JSON bodies are `Option Int`, and the JS idiom `x || 0` becomes
  `Option.getD 0` (both send a missing value and a literal 0 to 0).
* `round1` models `Number(x.toFixed(1))` on an idealized decimal reading of
  JS numbers: round to one decimal place, ties toward positive infinity.
-/

namespace TauxDeSortie

/-- JS `String(x)` on a nullable string: `String(null) = "null"`. -/
def jsStringOfOpt : Option String → String
  | none => "null"
  | some s => s

/-- JS truthiness of a possibly-missing string (`undefined`, `null` and the
empty string are falsy; every other string is truthy). -/
def jsTruthyStr : Option String → Bool
  | none => false
  | some s => !(s = "")

/- ------------------------------------------------------------------ -/
/- `chunkArray` (src/server.js, both variants; identical in part_000) -/
/- ------------------------------------------------------------------ -/

/-- Source `chunkArray(arr, size)` from `server.js`: slices `arr` into consecutive
blocks of `size` elements.  The source loop (`for i = 0; i < len; i += size`)
never terminates when `size = 0` and the array is nonempty, so the embedding
returns `[]` there and every theorem about chunking assumes `0 < size`. -/
def chunkArray {α : Type} (arr : List α) (size : Nat) : List (List α) :=
  if _hs : size = 0 then []
  else if _h : arr.length = 0 then []
  else arr.take size :: chunkArray (arr.drop size) size
termination_by arr.length
decreasing_by
  simp only [List.length_drop]
  omega

theorem chunkArray_join_aux {α : Type} (size : Nat) (hs : 0 < size) :
    ∀ (n : Nat) (arr : List α), arr.length ≤ n →
      (chunkArray arr size).flatten = arr := by
  intro n
  induction n with
  | zero =>
      intro arr h
      have : arr = [] := List.eq_nil_of_length_eq_zero (Nat.le_zero.mp h)
      subst this
      simp [chunkArray]
  | succ n ih =>
      intro arr h
      rw [chunkArray]
      by_cases h0 : size = 0
      · omega
      · simp only [dif_neg h0]
        by_cases harr : arr.length = 0
        · have : arr = [] := List.eq_nil_of_length_eq_zero harr
          simp [harr, this]
        · simp only [dif_neg harr, List.flatten_cons]
          rw [ih (arr.drop size)]
          · exact List.take_append_drop size arr
          · simp only [List.length_drop]
            omega

/-- Concatenating the chunks gives back the original list. -/
theorem chunkArray_join {α : Type} (arr : List α) (size : Nat) (hs : 0 < size) :
    (chunkArray arr size).flatten = arr :=
  chunkArray_join_aux size hs arr.length arr le_rfl

/- ------------------------------------------------------------------ -/
/- Chunked inventory collection (snapshot route, server.js 538-564)   -/
/- ------------------------------------------------------------------ -/

/-- One location-level entry of an `inventory_levels.json` response. -/
structure InvLevelEntry where
  inventory_item_id : String
  location_id : String
  available : Int
deriving DecidableEq, Repr

/-- A fixed mocked upstream answers a chunked `inventory_levels.json`
request with the concatenation of the per-identifier level entries of the
requested ids (`inventory_item_ids: idsChunk.join(",")`). -/
def batchResponse (upstream : String → List InvLevelEntry)
    (chunk : List String) : List InvLevelEntry :=
  chunk.flatMap upstream

/-- One step of the accumulation loop of the snapshot route:
`inventoryMap.set(id, (inventoryMap.get(id) || 0) + (lvl.available ?? 0))`.
The JS `Map` with `|| 0` default reads is modelled as a total function with
default value 0. -/
def addLevel (m : String → Int) (lvl : InvLevelEntry) : String → Int :=
  fun id =>
    if id = lvl.inventory_item_id then m lvl.inventory_item_id + lvl.available
    else m id

/-- The chunked inventory collection of the snapshot route: split the ids in
chunks of `chunkSize` (40 in the source), issue one bulk read per chunk and
accumulate the `available` quantities per `inventory_item_id` across all
returned location-level entries. -/
def collectAvailability (upstream : String → List InvLevelEntry)
    (ids : List String) (chunkSize : Nat) : String → Int :=
  (chunkArray ids chunkSize).foldl
    (fun m chunk => (batchResponse upstream chunk).foldl addLevel m)
    (fun _ => 0)

/-- Total available quantity reported for `id` across the level entries. -/
def sumAvailableFor (entries : List InvLevelEntry) (id : String) : Int :=
  ((entries.filter (fun e => e.inventory_item_id = id)).map
    (fun e => e.available)).sum

theorem foldl_addLevel (entries : List InvLevelEntry) :
    ∀ (m : String → Int) (id : String),
      entries.foldl addLevel m id = m id + sumAvailableFor entries id := by
  induction entries with
  | nil => intro m id; simp [sumAvailableFor]
  | cons e rest ih =>
      intro m id
      simp only [List.foldl_cons]
      rw [ih]
      by_cases hid : id = e.inventory_item_id
      · subst hid
        simp only [addLevel, if_pos rfl, sumAvailableFor, List.filter_cons,
          decide_eq_true_eq, if_pos rfl, if_true, List.map_cons, List.sum_cons]
        ring
      · have hne : ¬(e.inventory_item_id = id) := fun hc => hid hc.symm
        simp only [addLevel, if_neg hid, sumAvailableFor, List.filter_cons,
          decide_eq_true_eq, if_neg hne]

theorem batchResponse_append (upstream : String → List InvLevelEntry)
    (c₁ c₂ : List String) :
    batchResponse upstream (c₁ ++ c₂)
      = batchResponse upstream c₁ ++ batchResponse upstream c₂ := by
  simp [batchResponse]

theorem collect_loop_eq (upstream : String → List InvLevelEntry)
    (chunks : List (List String)) :
    ∀ (m : String → Int),
      chunks.foldl
          (fun m chunk => (batchResponse upstream chunk).foldl addLevel m) m
        = (batchResponse upstream chunks.flatten).foldl addLevel m := by
  induction chunks with
  | nil => intro m; simp [batchResponse]
  | cons c rest ih =>
      intro m
      simp only [List.foldl_cons, List.flatten_cons]
      rw [ih, batchResponse_append, List.foldl_append]

/-- Flattening of the chunked collection: for a positive chunk size the
per-identifier totals are exactly the cross-location sums over the entries
the mocked upstream returns for the full identifier list. -/
theorem collectAvailability_eq (upstream : String → List InvLevelEntry)
    (ids : List String) (chunkSize : Nat) (hs : 0 < chunkSize) (id : String) :
    collectAvailability upstream ids chunkSize id
      = sumAvailableFor (batchResponse upstream ids) id := by
  unfold collectAvailability
  rw [collect_loop_eq, chunkArray_join ids chunkSize hs, foldl_addLevel]
  simp

/-- C7: for every fixed upstream response function, the per-identifier
totals returned by the chunked inventory collection are independent of the
(positive) batch-size constant used to chunk the requests, and each
identifier total equals the sum of the available quantities over all
location-level entries returned for it. -/
theorem c7_collectAvailability_batch_invariant
    (upstream : String → List InvLevelEntry) (ids : List String)
    (s₁ s₂ : Nat) (h₁ : 0 < s₁) (h₂ : 0 < s₂) :
    collectAvailability upstream ids s₁ = collectAvailability upstream ids s₂
    ∧ ∀ id, collectAvailability upstream ids s₁ id
        = sumAvailableFor (batchResponse upstream ids) id := by
  constructor
  · funext id
    rw [collectAvailability_eq upstream ids s₁ h₁ id,
      collectAvailability_eq upstream ids s₂ h₂ id]
  · intro id
    exact collectAvailability_eq upstream ids s₁ h₁ id

/-- A concrete mocked upstream used by the C7 witness: two identifiers, one
of them stocked at two locations. -/
def mockUpstream : String → List InvLevelEntry := fun id =>
  if id = "a" then [⟨"a", "loc1", 3⟩, ⟨"a", "loc2", 4⟩]
  else if id = "b" then [⟨"b", "loc1", 5⟩] else []

theorem c7_witness :
    collectAvailability mockUpstream ["a", "b"] 1
        = collectAvailability mockUpstream ["a", "b"] 2
    ∧ ∀ id, collectAvailability mockUpstream ["a", "b"] 1 id
        = sumAvailableFor (batchResponse mockUpstream ["a", "b"]) id :=
  c7_collectAvailability_batch_invariant mockUpstream ["a", "b"] 1 2
    (by decide) (by decide)

/- ------------------------------------------------------------------ -/
/- The initial_stock table and the snapshot route (C1, C6)            -/
/- ------------------------------------------------------------------ -/

/-- One row of the `initial_stock` table (src/db.js plus the columns the
startup probe adds: `product_title`, `variant_title`, `image`).  The SQLite
schema declares `variant_id TEXT PRIMARY KEY` — the primary key is the
variant identifier alone, not the pair (variant, season). -/
structure StockRow where
  variant_id : Option String
  sku : Option String
  product_title : Option String
  variant_title : Option String
  image : Option String
  initial_qty : Int
  season : Option String
  snapshot_at : Nat
deriving DecidableEq, Repr

/-- SQLite primary-key conflict test: two TEXT keys conflict when they are
equal and non-NULL (in SQLite a NULL primary key never conflicts with
anything, including another NULL). -/
def pkConflict : Option String → Option String → Bool
  | some a, some b => a = b
  | _, _ => false

/-- SQL `REPLACE INTO initial_stock ... VALUES (...)`: delete any row whose
primary key conflicts with the incoming row, then append the new row. -/
def replaceInto (table : List StockRow) (r : StockRow) : List StockRow :=
  (table.filter (fun x => !(pkConflict x.variant_id r.variant_id))) ++ [r]

/-- One variant row prepared by the snapshot route (`variantMeta` joined
with the collected quantity): identifier, descriptive metadata and the
observed quantity. -/
structure VariantObservation where
  variant_id : String
  product_title : Option String
  variant_title : Option String
  image : Option String
  observed_qty : Int
deriving DecidableEq, Repr

/-- The `initial_stock` row the snapshot route writes for one variant.  The
column list of the REPLACE omits `sku`, so SQLite stores NULL there; the
timestamp is `new Date().toISOString()`, taken at write time. -/
def snapshotRow (season : String) (now : Nat) (v : VariantObservation) :
    StockRow :=
  { variant_id := some v.variant_id
    sku := none
    product_title := v.product_title
    variant_title := v.variant_title
    image := v.image
    initial_qty := v.observed_qty
    season := some season
    snapshot_at := now }

/-- The persistence step of `POST /api/initial_stock/snapshot`: one REPLACE
per prepared variant row.  The source fans the REPLACEs out with
`Promise.all`; SQLite serializes them, which the fold models. -/
def applySnapshot (season : String) (now : Nat)
    (rows : List VariantObservation) (table : List StockRow) :
    List StockRow :=
  rows.foldl (fun t v => replaceInto t (snapshotRow season now v)) table

/-- Lookup (`SELECT`) of the unique row of a (non-NULL) variant identifier. -/
def findRow (table : List StockRow) (vid : String) : Option StockRow :=
  table.find? (fun r => r.variant_id = some vid)

theorem findRow_replaceInto_self (table : List StockRow) (r : StockRow)
    (v : String) (hv : r.variant_id = some v) :
    findRow (replaceInto table r) v = some r := by
  unfold findRow replaceInto
  rw [List.find?_append]
  have hnone :
      (table.filter (fun x => !(pkConflict x.variant_id r.variant_id))).find?
        (fun r => r.variant_id = some v) = none := by
    rw [List.find?_eq_none]
    intro x hx
    have hmem := List.of_mem_filter hx
    simp only [Bool.not_eq_true', decide_eq_true_eq] at hmem ⊢
    intro hxv
    rw [hxv, hv] at hmem
    simp [pkConflict] at hmem
  rw [hnone]
  simp [hv]

theorem applySnapshot_append (season : String) (now : Nat)
    (rows : List VariantObservation) (v : VariantObservation)
    (table : List StockRow) :
    applySnapshot season now (rows ++ [v]) table
      = replaceInto (applySnapshot season now rows table)
          (snapshotRow season now v) := by
  unfold applySnapshot
  rw [List.foldl_append]
  rfl

/-- C1 amended: after a second snapshot run covering variant `v`, the
stored row for `v` is exactly the row written by the second run — REPLACE
semantics overwrite `initial_qty` and `snapshot_at` regardless of what any
earlier run wrote. -/
theorem c1_replace_overwrites_baseline (season : String) (n₁ n₂ : Nat)
    (run₁ run₂ : List VariantObservation) (v : VariantObservation)
    (table : List StockRow) :
    findRow
        (applySnapshot season n₂ (run₂ ++ [v])
          (applySnapshot season n₁ run₁ table))
        v.variant_id
      = some (snapshotRow season n₂ v) := by
  rw [applySnapshot_append]
  exact findRow_replaceInto_self _ _ _ rfl

/-- C1 counterexample: snapshotting season "fw25" for variant "v1" with
observed quantity 10 at time 1, then again with observed quantity 7 at
time 2, leaves the stored baseline at 7 with timestamp 2 — not the values
written by the first run, contradicting the claimed write-once baseline. -/
theorem c1_counterexample :
    (findRow
        (applySnapshot "fw25" 2 [⟨"v1", none, none, none, 7⟩]
          (applySnapshot "fw25" 1 [⟨"v1", none, none, none, 10⟩] []))
        "v1").map (fun r => (r.initial_qty, r.snapshot_at))
      = some ((7 : Int), 2)
    ∧ ((7 : Int), 2) ≠ ((10 : Int), 1) := by
  constructor
  · rfl
  · decide

/-- C6 amended: `initial_stock` is keyed by the variant identifier alone;
snapshotting a second season for a variant already snapshotted under a
first season REPLACEs the row, so afterwards the only stored row for that
variant carries the second season — the two seasons do not coexist. -/
theorem c6_seasons_do_not_coexist (seasonA seasonB : String) (n₁ n₂ : Nat)
    (v : VariantObservation) (w : VariantObservation)
    (hvw : w.variant_id = v.variant_id) (table : List StockRow) :
    (applySnapshot seasonB n₂ [w]
        (applySnapshot seasonA n₁ [v] table)).filter
        (fun r => r.variant_id = some v.variant_id)
      = [snapshotRow seasonB n₂ w] := by
  show (replaceInto (replaceInto table (snapshotRow seasonA n₁ v))
      (snapshotRow seasonB n₂ w)).filter
      (fun r => r.variant_id = some v.variant_id) = _
  have hw : (snapshotRow seasonB n₂ w).variant_id = some v.variant_id := by
    simp [snapshotRow, hvw]
  conv_lhs =>
    rw [show replaceInto (replaceInto table (snapshotRow seasonA n₁ v))
        (snapshotRow seasonB n₂ w)
      = (replaceInto table (snapshotRow seasonA n₁ v)).filter
          (fun x =>
            !(pkConflict x.variant_id (snapshotRow seasonB n₂ w).variant_id))
        ++ [snapshotRow seasonB n₂ w] from rfl]
  rw [List.filter_append]
  have hfront :
      ((replaceInto table (snapshotRow seasonA n₁ v)).filter
          (fun x =>
            !(pkConflict x.variant_id
                (snapshotRow seasonB n₂ w).variant_id))).filter
        (fun r => r.variant_id = some v.variant_id) = [] := by
    rw [List.filter_filter, List.filter_eq_nil_iff]
    intro x _ hcontra
    simp only [Bool.and_eq_true, Bool.not_eq_true', decide_eq_true_eq]
      at hcontra
    obtain ⟨heq, hpk⟩ := hcontra
    rw [heq, hw] at hpk
    simp [pkConflict] at hpk
  rw [hfront]
  simp [hw]

theorem c6_witness :
    (applySnapshot "B" 2 [⟨"v1", none, none, none, 3⟩]
        (applySnapshot "A" 1 [⟨"v1", none, none, none, 5⟩] [])).filter
        (fun r => r.variant_id = some "v1")
      = [snapshotRow "B" 2 ⟨"v1", none, none, none, 3⟩] :=
  c6_seasons_do_not_coexist "A" "B" 1 2 ⟨"v1", none, none, none, 5⟩
    ⟨"v1", none, none, none, 3⟩ rfl []

/-- C6 counterexample: variant "v1" snapshotted under season "a" (qty 5,
time 1); a later snapshot of season "b" covering "v1" (qty 3, time 2)
removes the season "a" row entirely — the claim that the (v, "a") row
stays present and unchanged fails. -/
theorem c6_counterexample :
    (applySnapshot "b" 2 [⟨"v1", none, none, none, 3⟩]
        (applySnapshot "a" 1 [⟨"v1", none, none, none, 5⟩] [])).filter
        (fun r => r.season = some "a")
      = [] := by
  rfl

/- ------------------------------------------------------------------ -/
/- Sales ledger, orders webhook (C8, C9, C10)                         -/
/- ------------------------------------------------------------------ -/

/-- One line item of an inbound `orders/create` payload. -/
structure LineItem where
  variant_id : Option String
  sku : Option String
  quantity : Option Int
deriving DecidableEq, Repr

/-- An inbound `orders/create` payload. -/
structure OrderPayload where
  id : String
  created_at : String
  line_items : Option (List LineItem)
deriving DecidableEq, Repr

/-- One row of the `sales` table (src/db.js). -/
structure SaleRecord where
  variant_id : Option String
  sku : Option String
  qty : Int
  order_id : String
  created_at : String
deriving DecidableEq, Repr

/-- The `sales` row inserted for one line item:
`[line.variant_id || null, line.sku || null, line.quantity || 0, order.id,
order.created_at]`. -/
def saleOfLine (order : OrderPayload) (line : LineItem) : SaleRecord :=
  { variant_id := line.variant_id
    sku := line.sku
    qty := line.quantity.getD 0
    order_id := order.id
    created_at := order.created_at }

/-- Route `POST /webhooks/orders_create`: rejects a body without `line_items`
with status 400 (writing nothing), otherwise appends one sales row per line
item and answers 200.  A JS empty array is truthy, so an order with
`line_items: []` is accepted and appends nothing. -/
def ordersCreateHandler (body : Option OrderPayload)
    (sales : List SaleRecord) : Nat × List SaleRecord :=
  match body with
  | none => (400, sales)
  | some order =>
      match order.line_items with
      | none => (400, sales)
      | some lines => (200, sales ++ lines.map (saleOfLine order))

/- ------------------------------------------------------------------ -/
/- Sell-through report (C2, C8, C10)                                  -/
/- ------------------------------------------------------------------ -/

/-- The distinct `variant_id` values of the sales ledger — the groups of
`SELECT variant_id, SUM(qty) AS sold FROM sales GROUP BY variant_id`
(SQL groups NULL keys together; the order SQLite emits groups in is not
relied on by any theorem below). -/
def groupKeys (sales : List SaleRecord) : List (Option String) :=
  (sales.map (fun s => s.variant_id)).dedup

/-- SQL `SUM(qty)` over the ledger rows of one group key. -/
def groupSum (sales : List SaleRecord) (k : Option String) : Int :=
  ((sales.filter (fun s => s.variant_id = k)).map (fun s => s.qty)).sum

/-- The entries of `new Map(sales.map(s => [String(s.variant_id), s.sold]))`:
the group key is stringified, so the NULL group gets the key "null". -/
def soldMapEntries (sales : List SaleRecord) : List (String × Int) :=
  (groupKeys sales).map (fun k => (jsStringOfOpt k, groupSum sales k))

/-- JS `Map` lookup on an entry list: when several entries carry the same
key, the map construction lets the later entry overwrite the earlier one,
so the lookup returns the value of the last matching entry. -/
def mapGet (entries : List (String × Int)) (key : String) : Option Int :=
  (entries.reverse.find? (fun e => e.1 = key)).map (fun e => e.2)

/-- Lookup `soldMap.get(String(i.variant_id)) || 0` (an absent key and a stored 0
both yield 0). -/
def soldFor (sales : List SaleRecord) (key : String) : Int :=
  (mapGet (soldMapEntries sales) key).getD 0

/-- JS `Number(x.toFixed(1))` on an idealized decimal reading of JS numbers:
round to one decimal place, ties toward positive infinity. -/
def round1 (x : ℚ) : ℚ := (⌊x * 10 + 1 / 2⌋ : ℤ) / 10

/-- One row of the `GET /api/sellthrough` response (second server.js
variant: titles and image instead of variant id and sku, and a numeric 0
percentage — not null — when the stored baseline is 0). -/
structure ReportRow where
  product_title : Option String
  variant_title : Option String
  image : Option String
  initial : Int
  sold : Int
  sell_through_pct : ℚ
deriving DecidableEq, Repr

/-- The report row computed for one `initial_stock` row:
`pct = i.initial_qty ? (sold / i.initial_qty) * 100 : 0` followed by
`Number(pct.toFixed(1))`.  The route reads nothing but `initial_stock` and
`sales`; the `inventory_changes` ledger is not consulted. -/
def reportRowFor (sales : List SaleRecord) (i : StockRow) : ReportRow :=
  { product_title := i.product_title
    variant_title := i.variant_title
    image := i.image
    initial := i.initial_qty
    sold := soldFor sales (jsStringOfOpt i.variant_id)
    sell_through_pct :=
      round1 (if i.initial_qty = 0 then 0
        else (soldFor sales (jsStringOfOpt i.variant_id) : ℚ)
              / (i.initial_qty : ℚ) * 100) }

/-- Route `GET /api/sellthrough` for a (truthy) season key: select the
`initial_stock` rows of the season and map them to report rows. -/
def computeSellThrough (stock : List StockRow) (sales : List SaleRecord)
    (season : String) : List ReportRow :=
  (stock.filter (fun r => r.season = some season)).map (reportRowFor sales)

theorem find?_key_eq (l : List (Option String)) (v : String)
    (hv : v ≠ "null") :
    l.find? (fun k => jsStringOfOpt k = v) = l.find? (fun k => k = some v) := by
  induction l with
  | nil => rfl
  | cons k rest ih =>
      have hpred : decide (jsStringOfOpt k = v) = decide (k = some v) := by
        cases k with
        | none =>
            simp only [jsStringOfOpt]
            have h1 : ¬("null" = v) := fun h => hv h.symm
            have h2 : ¬((none : Option String) = some v) := by simp
            simp [h1, h2]
        | some s => simp [jsStringOfOpt]
      rw [List.find?_cons, List.find?_cons, hpred]
      cases hdec : decide (k = some v) with
      | true => rfl
      | false => exact ih

theorem find?_self_of_mem (l : List (Option String)) (v : String) :
    l.find? (fun k => k = some v)
      = if some v ∈ l then some (some v) else none := by
  induction l with
  | nil => rfl
  | cons k rest ih =>
      by_cases hk : k = some v
      · subst hk
        rw [List.find?_cons_of_pos _ (by simp)]
        simp
      · rw [List.find?_cons_of_neg _ (by simpa using hk)]
        rw [ih]
        have hk2 : ¬(some v = k) := fun h => hk h.symm
        simp [hk2]

/-- For a lookup key `v` other than the collision string "null", the JS
sold map returns exactly the SQL group sum of the variant `some v`. -/
theorem soldFor_eq_groupSum (sales : List SaleRecord) (v : String)
    (hv : v ≠ "null") :
    soldFor sales v = groupSum sales (some v) := by
  unfold soldFor mapGet soldMapEntries
  rw [← List.map_reverse, List.find?_map]
  have hcomp :
      ((fun (e : String × Int) => decide (e.1 = v)) ∘
          fun k => (jsStringOfOpt k, groupSum sales k))
        = fun k => decide (jsStringOfOpt k = v) := by
    funext k; rfl
  rw [hcomp, find?_key_eq _ v hv, find?_self_of_mem]
  by_cases hmem : some v ∈ (groupKeys sales).reverse
  · simp [hmem]
  · have hnone : ∀ s ∈ sales, ¬(s.variant_id = some v) := by
      intro s hs hsv
      apply hmem
      rw [List.mem_reverse]
      unfold groupKeys
      rw [List.mem_dedup]
      exact List.mem_map.mpr ⟨s, hs, hsv⟩
    have hfilter : sales.filter (fun s => s.variant_id = some v) = [] := by
      rw [List.filter_eq_nil_iff]
      intro s hs
      simpa using hnone s hs
    simp [hmem, groupSum, hfilter]

theorem round1_intCast (n : ℤ) : round1 ((n : ℚ)) = (n : ℚ) := by
  unfold round1
  have h : ((n : ℚ) * 10 + 1 / 2) = ((10 * n : ℤ) : ℚ) + 1 / 2 := by
    push_cast; ring
  rw [h, Int.floor_int_add]
  have h2 : ⌊(1 / 2 : ℚ)⌋ = 0 := by
    rw [Int.floor_eq_zero_iff]
    constructor <;> norm_num
  rw [h2]
  push_cast
  ring

/-- Rewriting every `created_at` in the ledger changes no sold total: the
aggregation has no time window. -/
theorem soldFor_retime (sales : List SaleRecord) (f : String → String)
    (key : String) :
    soldFor (sales.map (fun s => { s with created_at := f s.created_at }))
        key
      = soldFor sales key := by
  have hentries :
      soldMapEntries
          (sales.map (fun s => { s with created_at := f s.created_at }))
        = soldMapEntries sales := by
    have hkeys :
        groupKeys (sales.map (fun s => { s with created_at := f s.created_at }))
          = groupKeys sales := by
      unfold groupKeys
      rw [List.map_map]
      rfl
    have hsum : ∀ k,
        groupSum (sales.map (fun s => { s with created_at := f s.created_at })) k
          = groupSum sales k := by
      intro k
      unfold groupSum
      rw [List.filter_map, List.map_map]
      rfl
    unfold soldMapEntries
    rw [hkeys]
    exact List.map_congr_left (fun k _ => by rw [hsum])
  unfold soldFor
  rw [hentries]

/-- C8 amended: in the sell-through report, the sold quantity of a row
whose variant identifier does not stringify to the JS collision key "null"
is the ledger-wide sum of the `qty` of all sale records of that variant,
with no season or time-window restriction (rewriting every sale timestamp
changes nothing).  Rows whose identifier is NULL or the literal string
"null" can instead pick up the NULL sales group. -/
theorem c8_sold_ledger_wide (stock : List StockRow)
    (sales : List SaleRecord) (season : String) (i : StockRow)
    (f : String → String) (hmem : i ∈ stock)
    (hseason : i.season = some season)
    (hkey : jsStringOfOpt i.variant_id ≠ "null") :
    reportRowFor sales i ∈ computeSellThrough stock sales season
    ∧ (reportRowFor sales i).sold = groupSum sales i.variant_id
    ∧ (reportRowFor
          (sales.map (fun s => { s with created_at := f s.created_at })) i).sold
        = (reportRowFor sales i).sold := by
  obtain ⟨v, hv, hvnull⟩ : ∃ v, i.variant_id = some v ∧ v ≠ "null" := by
    cases hvid : i.variant_id with
    | none => exact absurd (by rw [hvid]; rfl) hkey
    | some v =>
        refine ⟨v, rfl, ?_⟩
        intro hcontra
        exact hkey (by rw [hvid, hcontra]; rfl)
  refine ⟨?_, ?_, ?_⟩
  · unfold computeSellThrough
    exact List.mem_map.mpr
      ⟨i, List.mem_filter.mpr ⟨hmem, by simp [hseason]⟩, rfl⟩
  · show soldFor sales (jsStringOfOpt i.variant_id) = groupSum sales i.variant_id
    rw [hv]
    exact soldFor_eq_groupSum sales v hvnull
  · show soldFor (sales.map (fun s => { s with created_at := f s.created_at }))
        (jsStringOfOpt i.variant_id) = soldFor sales (jsStringOfOpt i.variant_id)
    exact soldFor_retime sales f (jsStringOfOpt i.variant_id)

theorem c8_witness :
    reportRowFor [⟨some "v1", none, 4, "o1", "t0"⟩]
        ⟨some "v1", none, none, none, none, 10, some "s", 1⟩
      ∈ computeSellThrough
          [⟨some "v1", none, none, none, none, 10, some "s", 1⟩]
          [⟨some "v1", none, 4, "o1", "t0"⟩] "s"
    ∧ (reportRowFor [⟨some "v1", none, 4, "o1", "t0"⟩]
        ⟨some "v1", none, none, none, none, 10, some "s", 1⟩).sold
        = groupSum [⟨some "v1", none, 4, "o1", "t0"⟩] (some "v1")
    ∧ (reportRowFor
          (([⟨some "v1", none, 4, "o1", "t0"⟩] : List SaleRecord).map
            (fun s => { s with created_at := (fun _ => "t9") s.created_at }))
          ⟨some "v1", none, none, none, none, 10, some "s", 1⟩).sold
        = (reportRowFor [⟨some "v1", none, 4, "o1", "t0"⟩]
            ⟨some "v1", none, none, none, none, 10, some "s", 1⟩).sold :=
  c8_sold_ledger_wide
    [⟨some "v1", none, none, none, none, 10, some "s", 1⟩]
    [⟨some "v1", none, 4, "o1", "t0"⟩] "s"
    ⟨some "v1", none, none, none, none, 10, some "s", 1⟩
    (fun _ => "t9") (by simp) rfl (by decide)

/-- C8 counterexample: a snapshot row whose variant identifier is the
literal TEXT string "null" (insertable through the import route) is
attributed the NULL sales group: with a single sale record carrying a NULL
variant id and qty 5, the report shows sold = 5 for the "null" row even
though no sale record of that variant exists — the attributed sold is not
the sum over the sale records of that variant. -/
theorem c8_counterexample :
    (computeSellThrough
        [⟨some "null", none, some "P", some "V", none, 10, some "s", 1⟩]
        [⟨none, none, 5, "o1", "t"⟩] "s").map (fun r => r.sold) = [5]
    ∧ ([⟨none, none, 5, "o1", "t"⟩] : List SaleRecord).filter
        (fun s => s.variant_id = some "null") = []
    ∧ (5 : Int) ≠ 0 := by
  refine ⟨rfl, rfl, by decide⟩

/-- C10 amended: deleting every NULL-variant sale record from the ledger
leaves the report row of any snapshot row unchanged, provided that row has
a non-NULL variant identifier that is not the literal string "null" — the
original claim additionally needs to exclude the "null" TEXT identifier,
to which JS stringification attributes the NULL sales group. -/
theorem c10_null_sales_contribute_nothing (stock : List StockRow)
    (sales : List SaleRecord) (season : String) (i : StockRow)
    (hmem : i ∈ stock) (hseason : i.season = some season)
    (hkey : jsStringOfOpt i.variant_id ≠ "null") :
    reportRowFor (sales.filter (fun s => !(s.variant_id = none))) i
      = reportRowFor sales i
    ∧ reportRowFor sales i ∈ computeSellThrough stock sales season := by
  obtain ⟨v, hv, hvnull⟩ : ∃ v, i.variant_id = some v ∧ v ≠ "null" := by
    cases hvid : i.variant_id with
    | none => exact absurd (by rw [hvid]; rfl) hkey
    | some v =>
        refine ⟨v, rfl, ?_⟩
        intro hcontra
        exact hkey (by rw [hvid, hcontra]; rfl)
  constructor
  · have hfil :
        (sales.filter (fun s => !(s.variant_id = none))).filter
            (fun s => s.variant_id = some v)
          = sales.filter (fun s => s.variant_id = some v) := by
      rw [List.filter_filter]
      apply List.filter_congr
      intro s _
      by_cases hsv : s.variant_id = some v
      · simp [hsv]
      · simp [hsv]
    have hsold :
        soldFor (sales.filter (fun s => !(s.variant_id = none)))
            (jsStringOfOpt i.variant_id)
          = soldFor sales (jsStringOfOpt i.variant_id) := by
      rw [hv]
      show soldFor _ (jsStringOfOpt (some v)) = soldFor _ (jsStringOfOpt (some v))
      rw [show jsStringOfOpt (some v) = v from rfl,
        soldFor_eq_groupSum _ v hvnull, soldFor_eq_groupSum _ v hvnull]
      unfold groupSum
      rw [hfil]
    unfold reportRowFor
    rw [hsold]
  · unfold computeSellThrough
    exact List.mem_map.mpr
      ⟨i, List.mem_filter.mpr ⟨hmem, by simp [hseason]⟩, rfl⟩

theorem c10_witness :
    reportRowFor
        (([⟨none, none, 3, "o2", "u"⟩, ⟨some "v2", none, 6, "o3", "u"⟩] :
            List SaleRecord).filter (fun s => !(s.variant_id = none)))
        ⟨some "v2", none, none, none, none, 12, some "w", 2⟩
      = reportRowFor
          [⟨none, none, 3, "o2", "u"⟩, ⟨some "v2", none, 6, "o3", "u"⟩]
          ⟨some "v2", none, none, none, none, 12, some "w", 2⟩
    ∧ reportRowFor
          [⟨none, none, 3, "o2", "u"⟩, ⟨some "v2", none, 6, "o3", "u"⟩]
          ⟨some "v2", none, none, none, none, 12, some "w", 2⟩
        ∈ computeSellThrough
            [⟨some "v2", none, none, none, none, 12, some "w", 2⟩]
            [⟨none, none, 3, "o2", "u"⟩, ⟨some "v2", none, 6, "o3", "u"⟩] "w" :=
  c10_null_sales_contribute_nothing
    [⟨some "v2", none, none, none, none, 12, some "w", 2⟩]
    [⟨none, none, 3, "o2", "u"⟩, ⟨some "v2", none, 6, "o3", "u"⟩] "w"
    ⟨some "v2", none, none, none, none, 12, some "w", 2⟩
    (by simp) rfl (by decide)

/-- C10 counterexample: the database state with one snapshot row whose
variant identifier is the (non-NULL) TEXT string "null" and one sale
record with a NULL variant id satisfies the claim hypothesis (no snapshot
row has a NULL variant identifier), yet the NULL sale contributes its full
qty 7 to that row even though no sale record matches the row identifier. -/
theorem c10_counterexample :
    (⟨some "null", none, some "P", some "V", none, 10, some "t", 1⟩ :
        StockRow).variant_id ≠ none
    ∧ (computeSellThrough
        [⟨some "null", none, some "P", some "V", none, 10, some "t", 1⟩]
        [⟨none, none, 7, "o9", "x"⟩] "t").map (fun r => r.sold) = [7]
    ∧ ([⟨none, none, 7, "o9", "x"⟩] : List SaleRecord).filter
        (fun s => s.variant_id = some "null") = [] := by
  refine ⟨by decide, rfl, rfl⟩

/- ------------------------------------------------------------------ -/
/- C2: the claimed restock-aware percentage vs the implemented one    -/
/- ------------------------------------------------------------------ -/

/-- Modelled from the spec: the delta-bearing Inventory Observation the
sell-through formula of the spec refers to.  It is missing from the code:
the stored `inventory_changes` table has no delta column, `initial_stock`
has no stock-item column, and the sell-through route reads no inventory
data at all. -/
structure SpecObservation where
  stock_item_id : String
  delta : Int
  recorded_at : Nat
deriving DecidableEq, Repr

/-- Modelled from the spec: `extra_received = sum(delta)` over the
observations of the stock item of the row recorded at or after the snapshot
time, positive deltas only. -/
def specExtraReceived (obs : List SpecObservation) (stockItem : String)
    (snapAt : Nat) : Int :=
  ((obs.filter (fun o =>
      o.stock_item_id = stockItem
        && decide (snapAt ≤ o.recorded_at)
        && decide (0 < o.delta))).map (fun o => o.delta)).sum

/-- Modelled from the spec: `sell_through_pct = round1(sold / initial_total
* 100)` if `initial_total > 0`, else 0, with `initial_total = baseline_qty
+ extra_received`. -/
def specSellThroughPct (baseline extra sold : Int) : ℚ :=
  if 0 < baseline + extra then
    round1 ((sold : ℚ) / ((baseline + extra : Int) : ℚ) * 100)
  else 0

/-- C2 amended: the implemented percentage is `round1(sold / initial_qty *
100)` when the stored baseline is nonzero and 0 otherwise, where `sold` is
the ledger-wide per-variant sum; the inventory ledger is not consulted, so
no restock delta ever enters the denominator. -/
theorem c2_pct_ignores_restocks (stock : List StockRow)
    (sales : List SaleRecord) (season : String) (i : StockRow)
    (hmem : i ∈ stock) (hseason : i.season = some season)
    (hkey : jsStringOfOpt i.variant_id ≠ "null") :
    reportRowFor sales i ∈ computeSellThrough stock sales season
    ∧ (reportRowFor sales i).sell_through_pct
        = (if i.initial_qty = 0 then 0
           else round1 ((groupSum sales i.variant_id : ℚ)
              / (i.initial_qty : ℚ) * 100)) := by
  obtain ⟨v, hv, hvnull⟩ : ∃ v, i.variant_id = some v ∧ v ≠ "null" := by
    cases hvid : i.variant_id with
    | none => exact absurd (by rw [hvid]; rfl) hkey
    | some v =>
        refine ⟨v, rfl, ?_⟩
        intro hcontra
        exact hkey (by rw [hvid, hcontra]; rfl)
  constructor
  · unfold computeSellThrough
    exact List.mem_map.mpr
      ⟨i, List.mem_filter.mpr ⟨hmem, by simp [hseason]⟩, rfl⟩
  · have hsold : soldFor sales (jsStringOfOpt i.variant_id)
        = groupSum sales i.variant_id := by
      rw [hv]
      exact soldFor_eq_groupSum sales v hvnull
    unfold reportRowFor
    simp only [hsold]
    by_cases hz : i.initial_qty = 0
    · simp only [hz, if_pos rfl, if_true]
      have h0 := round1_intCast 0
      simpa using h0
    · simp [hz]

theorem c2_witness :
    reportRowFor [⟨some "v1", none, 36, "o1", "t"⟩]
        ⟨some "v1", none, some "P", some "V", none, 100, some "s", 1⟩
      ∈ computeSellThrough
          [⟨some "v1", none, some "P", some "V", none, 100, some "s", 1⟩]
          [⟨some "v1", none, 36, "o1", "t"⟩] "s"
    ∧ (reportRowFor [⟨some "v1", none, 36, "o1", "t"⟩]
        ⟨some "v1", none, some "P", some "V", none, 100, some "s", 1⟩).sell_through_pct
        = (if (100 : Int) = 0 then 0
           else round1 ((groupSum [⟨some "v1", none, 36, "o1", "t"⟩]
                (some "v1") : ℚ) / ((100 : Int) : ℚ) * 100)) :=
  c2_pct_ignores_restocks
    [⟨some "v1", none, some "P", some "V", none, 100, some "s", 1⟩]
    [⟨some "v1", none, 36, "o1", "t"⟩] "s"
    ⟨some "v1", none, some "P", some "V", none, 100, some "s", 1⟩
    (by simp) rfl (by decide)

/-- C2 counterexample: a season "s" row with baseline 100 snapshotted at
time 1, a restock observation of +20 at time 5 and cumulative sales of 36.
The claimed formula gives `initial_total = 120` and a percentage of 30.0;
the implemented report returns 36.0 because the restock ledger is never
read. -/
theorem c2_counterexample :
    (computeSellThrough
        [⟨some "v1", none, some "P", some "V", none, 100, some "s", 1⟩]
        [⟨some "v1", none, 36, "o1", "t"⟩] "s").map
        (fun r => r.sell_through_pct)
      = [(36 : ℚ)]
    ∧ specSellThroughPct 100 (specExtraReceived [⟨"si1", 20, 5⟩] "si1" 1) 36
        = 30
    ∧ (36 : ℚ) ≠ 30 := by
  refine ⟨?_, ?_, by norm_num⟩
  · show [(reportRowFor [⟨some "v1", none, 36, "o1", "t"⟩]
        ⟨some "v1", none, some "P", some "V", none, 100, some "s", 1⟩).sell_through_pct]
      = [(36 : ℚ)]
    have hsold : soldFor [⟨some "v1", none, 36, "o1", "t"⟩]
        (jsStringOfOpt (some "v1")) = 36 := rfl
    unfold reportRowFor
    simp only [hsold]
    have harg : (if (100 : Int) = 0 then (0 : ℚ)
        else ((36 : Int) : ℚ) / ((100 : Int) : ℚ) * 100) = ((36 : ℤ) : ℚ) := by
      norm_num
    rw [harg, round1_intCast]
    norm_num
  · have hextra : specExtraReceived [⟨"si1", 20, 5⟩] "si1" 1 = 20 := rfl
    rw [hextra]
    unfold specSellThroughPct
    rw [if_pos (by norm_num)]
    have harg : ((36 : Int) : ℚ) / (((100 + 20 : Int) : Int) : ℚ) * 100
        = ((30 : ℤ) : ℚ) := by norm_num
    rw [harg, round1_intCast]
    norm_num

/- ------------------------------------------------------------------ -/
/- Inventory-change ledger and its webhook (C4, C9)                   -/
/- ------------------------------------------------------------------ -/

/-- One row of `inventory_changes` (src/db.js): the table stores the raw
observed `available` reading — it has no delta column. -/
structure InvChangeRow where
  inventory_item_id : Option String
  location_id : Option String
  available : Int
  recorded_at : Nat
deriving DecidableEq, Repr

/-- An inbound `inventory_levels/update` payload. -/
structure InvUpdatePayload where
  inventory_item_id : Option String
  location_id : Option String
  available : Option Int
deriving DecidableEq, Repr

/-- Route `POST /webhooks/inventory_levels_update` persistence: a plain INSERT of
`[p.inventory_item_id || null, p.location_id || null, p.available || 0,
now]`.  No prior observation is looked up and no delta is computed. -/
def recordInventoryUpdate (table : List InvChangeRow)
    (p : InvUpdatePayload) (now : Nat) : List InvChangeRow :=
  table ++ [{ inventory_item_id := p.inventory_item_id
              location_id := p.location_id
              available := p.available.getD 0
              recorded_at := now }]

/-- A sequence of observed readings for one fixed (stock item, location)
pair recorded into an empty ledger, with strictly increasing timestamps. -/
def recordSeq (vals : List Int) : List InvChangeRow :=
  vals.foldl
    (fun t q =>
      recordInventoryUpdate t ⟨some "item1", some "loc1", some q⟩ t.length)
    []

/-- Modelled from the spec: the signed delta sequence of successive
readings (`delta = available_qty - prior.available_qty`, or 0 when no
prior observation exists).  The code computes and stores no such value. -/
def specDeltas : List Int → List Int
  | [] => []
  | a :: rest => 0 :: List.zipWith (fun prev cur => cur - prev) (a :: rest) rest

/-- C4 amended: recording an inventory observation appends a single row
holding the raw `available` reading (0 when missing) and never touches the
prior rows; no delta is computed or stored — for the reading sequence
[10, 14, 9, 9] the stored quantities are [10, 14, 9, 9], whose derived
(not stored) delta sequence is [0, 4, -5, 0]. -/
theorem c4_raw_readings_appended (table : List InvChangeRow)
    (p : InvUpdatePayload) (now : Nat) :
    (recordInventoryUpdate table p now).take table.length = table
    ∧ recordInventoryUpdate table p now
        = table ++ [{ inventory_item_id := p.inventory_item_id
                      location_id := p.location_id
                      available := p.available.getD 0
                      recorded_at := now }]
    ∧ (recordSeq [10, 14, 9, 9]).map (fun r => r.available) = [10, 14, 9, 9]
    ∧ specDeltas [10, 14, 9, 9] = [0, 4, -5, 0] := by
  refine ⟨?_, rfl, rfl, rfl⟩
  unfold recordInventoryUpdate
  rw [List.take_left]

/-- C4 counterexample: for the reading sequence [10, 14, 9, 9] the ledger
stores the raw quantities [10, 14, 9, 9] — there is no delta column — and
that stored sequence differs from the claimed stored deltas [0, 4, -5, 0]
from the second reading on. -/
theorem c4_counterexample :
    (recordSeq [10, 14, 9, 9]).map (fun r => r.available) = [10, 14, 9, 9]
    ∧ ([10, 14, 9, 9] : List Int) ≠ [0, 4, -5, 0] := by
  exact ⟨rfl, by decide⟩

/- ------------------------------------------------------------------ -/
/- Input validation of the routes (C9)                                -/
/- ------------------------------------------------------------------ -/

/-- Route `POST /api/initial_stock/snapshot` input gate: `if (!season) return
res.status(400)...`.  The discovery and inventory pipeline is abstracted
as the prepared variant rows it would produce; on the happy path the route
trims the season and REPLACEs one row per variant. -/
def snapshotHandler (season : Option String)
    (fetchedRows : List VariantObservation) (now : Nat)
    (table : List StockRow) : Nat × List StockRow :=
  match season with
  | none => (400, table)
  | some s =>
      if s = "" then (400, table)
      else (200, applySnapshot s.trim now fetchedRows table)

/-- Route `GET /api/sellthrough` input gate: `if (!season) return
res.status(400)...`; the season is used untrimmed in the WHERE clause. -/
def sellthroughHandler (season : Option String) (stock : List StockRow)
    (sales : List SaleRecord) : Nat × List ReportRow :=
  match season with
  | none => (400, [])
  | some s =>
      if s = "" then (400, [])
      else (200, computeSellThrough stock sales s)

/-- Route `POST /webhooks/inventory_levels_update` has no input gate at all: a
row is inserted and 200 returned whatever the payload carries. -/
def inventoryUpdateHandler (p : InvUpdatePayload)
    (table : List InvChangeRow) (now : Nat) : Nat × List InvChangeRow :=
  (200, recordInventoryUpdate table p now)

/-- C9 amended: a snapshot or sell-through request with a missing (falsy)
season key and an order event without line items are rejected with status
400 and write nothing; but an inventory-update event is never rejected —
whatever fields are missing, it answers 200 and always appends a row. -/
theorem c9_validation (season : Option String)
    (hfalsy : jsTruthyStr season = false)
    (fetchedRows : List VariantObservation) (now : Nat)
    (table : List StockRow) (stock : List StockRow)
    (sales : List SaleRecord) (order : OrderPayload)
    (hno : order.line_items = none) (ledger : List InvChangeRow)
    (p : InvUpdatePayload) :
    snapshotHandler season fetchedRows now table = (400, table)
    ∧ sellthroughHandler season stock sales = (400, [])
    ∧ ordersCreateHandler (some order) sales = (400, sales)
    ∧ ordersCreateHandler none sales = (400, sales)
    ∧ (inventoryUpdateHandler p ledger now).1 = 200
    ∧ (inventoryUpdateHandler p ledger now).2.length = ledger.length + 1 := by
  refine ⟨?_, ?_, ?_, rfl, rfl, ?_⟩
  · cases season with
    | none => rfl
    | some s =>
        have hs : s = "" := by simpa [jsTruthyStr] using hfalsy
        simp [snapshotHandler, hs]
  · cases season with
    | none => rfl
    | some s =>
        have hs : s = "" := by simpa [jsTruthyStr] using hfalsy
        simp [sellthroughHandler, hs]
  · simp [ordersCreateHandler, hno]
  · simp [inventoryUpdateHandler, recordInventoryUpdate]

theorem c9_witness :
    snapshotHandler (some "") [] 0 [] = (400, [])
    ∧ sellthroughHandler (some "") [] [] = (400, [])
    ∧ ordersCreateHandler (some ⟨"o1", "t", none⟩) [] = (400, [])
    ∧ ordersCreateHandler none [] = (400, [])
    ∧ (inventoryUpdateHandler ⟨none, none, none⟩ [] 0).1 = 200
    ∧ (inventoryUpdateHandler ⟨none, none, none⟩ [] 0).2.length
        = List.length ([] : List InvChangeRow) + 1 :=
  c9_validation (some "") (by decide) [] 0 [] [] [] ⟨"o1", "t", none⟩ rfl []
    ⟨none, none, none⟩

/-- C9 counterexample: a malformed inventory-update event missing its
stock-item identifier is not rejected: the handler answers 200 (not a
client error) and a row with NULL identifiers is written. -/
theorem c9_counterexample :
    inventoryUpdateHandler ⟨none, none, none⟩ [] 0
      = (200, [⟨none, none, 0, 0⟩])
    ∧ (200 : Nat) ≠ 400
    ∧ ([⟨none, none, 0, 0⟩] : List InvChangeRow) ≠ [] := by
  refine ⟨rfl, by decide, by decide⟩

/- ------------------------------------------------------------------ -/
/- Catalog client retry behaviour (C5)                                -/
/- ------------------------------------------------------------------ -/

/-- One upstream answer: HTTP 200 with data, or an HTTP error status with
an optional `retry-after` header value (in seconds). -/
inductive UpstreamResp (α : Type) where
  | ok (data : α)
  | httpErr (status : Nat) (retryAfter : Option Nat)
deriving DecidableEq, Repr

/-- Function `shopifyGet` of src/unnamed/part_000 lines 321-342: on a 429 with
`retry < 5`, sleep `Number(err.response.headers["retry-after"] || 2) *
1000 + 300` milliseconds and retry; any other error status throws
immediately.  The upstream is modelled per attempt index; the result
carries the list of sleep durations in milliseconds, in order.  (The
sibling variant in server.js adds 200 ms instead of 300; the claim cites
the 300 ms figure of this variant.) -/
def shopifyGet {α : Type} (upstream : Nat → UpstreamResp α)
    (attempt : Nat) (retry : Nat) : Except Nat α × List Nat :=
  match upstream attempt with
  | .ok d => (Except.ok d, [])
  | .httpErr status retryAfter =>
      if _h : status = 429 ∧ retry < 5 then
        let sec := retryAfter.getD 2
        let rest := shopifyGet upstream (attempt + 1) (retry + 1)
        (rest.1, (sec * 1000 + 300) :: rest.2)
      else (Except.error status, [])
termination_by 5 - retry
decreasing_by omega

theorem shopifyGet_delays_le :
    ∀ (n : Nat) {α : Type} (u : Nat → UpstreamResp α) (attempt retry : Nat),
      5 - retry ≤ n → (shopifyGet u attempt retry).2.length ≤ 5 - retry := by
  intro n
  induction n with
  | zero =>
      intro α u attempt retry hr
      rw [shopifyGet]
      split
      · simp
      · split
        · rename_i hcon
          exact absurd hcon.2 (by omega)
        · simp
  | succ n ih =>
      intro α u attempt retry hr
      rw [shopifyGet]
      split
      · simp
      · split
        · rename_i hcon
          obtain ⟨h429, hretry⟩ := hcon
          have hrec := ih u (attempt + 1) (retry + 1) (by omega)
          simp only [List.length_cons]
          omega
        · simp

/-- C5 amended: at most 5 retries ever happen; three consecutive 429s
followed by success give exactly the three delays
`(retry-after or default 2) * 1000 + 300` and succeed; six (or more)
consecutive 429s fail with 429 after the 5th retry; a non-429 error fails
immediately with no delay.  The 2-second figure is a default used when the
`retry-after` header is absent, not a lower bound applied to it. -/
theorem c5_retry_behaviour {α : Type} (u : Nat → UpstreamResp α)
    (ra : Nat → Option Nat) (x : α) (s : Nat) :
    (shopifyGet u 0 0).2.length ≤ 5
    ∧ shopifyGet
        (fun i => if i < 3 then UpstreamResp.httpErr 429 (ra i)
          else UpstreamResp.ok x) 0 0
        = (Except.ok x,
            [(ra 0).getD 2 * 1000 + 300, (ra 1).getD 2 * 1000 + 300,
              (ra 2).getD 2 * 1000 + 300])
    ∧ shopifyGet
        (fun i => (UpstreamResp.httpErr 429 (ra i) : UpstreamResp α)) 0 0
        = (Except.error 429,
            [(ra 0).getD 2 * 1000 + 300, (ra 1).getD 2 * 1000 + 300,
              (ra 2).getD 2 * 1000 + 300, (ra 3).getD 2 * 1000 + 300,
              (ra 4).getD 2 * 1000 + 300])
    ∧ (s ≠ 429 →
        shopifyGet
          (fun _ => (UpstreamResp.httpErr s (ra 0) : UpstreamResp α)) 0 0
          = (Except.error s, [])) := by
  refine ⟨?_, ?_, ?_, ?_⟩
  · exact shopifyGet_delays_le 5 u 0 0 (by omega)
  · simp [shopifyGet]
  · simp [shopifyGet]
  · intro hs
    have hcon : ¬(s = 429 ∧ 0 < 5) := fun hcon => hs hcon.1
    simp [shopifyGet, hcon]
    exact hs

theorem c5_witness :
    (shopifyGet (fun _ => UpstreamResp.ok (0 : Nat)) 0 0).2.length ≤ 5
    ∧ shopifyGet
        (fun i => if i < 3 then
            UpstreamResp.httpErr 429 ((fun _ => (none : Option Nat)) i)
          else UpstreamResp.ok (0 : Nat)) 0 0
        = (Except.ok 0, [2300, 2300, 2300])
    ∧ shopifyGet
        (fun i => (UpstreamResp.httpErr 429 ((fun _ => (none : Option Nat)) i)
          : UpstreamResp Nat)) 0 0
        = (Except.error 429, [2300, 2300, 2300, 2300, 2300])
    ∧ shopifyGet
        (fun _ => (UpstreamResp.httpErr 500 none : UpstreamResp Nat)) 0 0
        = (Except.error 500, []) := by
  have h := c5_retry_behaviour (fun _ => UpstreamResp.ok (0 : Nat))
    (fun _ => (none : Option Nat)) 0 500
  exact ⟨h.1, h.2.1, h.2.2.1, h.2.2.2 (by decide)⟩

/-- A mocked upstream answering one 429 carrying `retry-after: 1`, then
succeeding. -/
def upstream429once : Nat → UpstreamResp Nat := fun i =>
  if i = 0 then UpstreamResp.httpErr 429 (some 1) else UpstreamResp.ok 0

/-- C5 counterexample: with a server-specified retry-after of 1 second the
code sleeps 1 * 1000 + 300 = 1300 ms, not the claimed
max(1, 2) * 1000 + 300 = 2300 ms — the 2-second figure is only a default
for a missing header, not a floor. -/
theorem c5_counterexample :
    shopifyGet upstream429once 0 0 = (Except.ok 0, [1300])
    ∧ (1300 : Nat) ≠ max 1 2 * 1000 + 300 := by
  constructor
  · simp [shopifyGet, upstream429once]
  · decide

/- ------------------------------------------------------------------ -/
/- Tag-filtered catalog discovery (C3)                                -/
/- ------------------------------------------------------------------ -/

/-
JS strings are modelled as `List Char` in this section so that the string
operations the filter uses stay kernel-computable.  The three operations
below re-express, over character lists, exactly the JS string methods the
source calls: `String.prototype.trim`, `String.prototype.toLowerCase`, and
`String.prototype.split(",")`.
-/

/-- JS `s.trim()`: strip leading and trailing whitespace. -/
def jsTrim (s : List Char) : List Char :=
  ((s.dropWhile Char.isWhitespace).reverse.dropWhile
    Char.isWhitespace).reverse

/-- JS `s.toLowerCase()` (ASCII case mapping suffices for the tags the
routes compare). -/
def jsToLower (s : List Char) : List Char := s.map Char.toLower

/-- JS `s.split(",")`: split at every comma; the empty string yields one
empty piece, matching `"".split(",") = [""]`. -/
def splitComma : List Char → List (List Char)
  | [] => [[]]
  | c :: rest =>
      match splitComma rest with
      | [] => [[]]
      | h :: t => if c = ',' then [] :: h :: t else (c :: h) :: t

/-- The tag normalization both filter variants apply to a product tag
string: `p.tags.split(",").map(t => t.trim().toLowerCase())`. -/
def normalizeTags (tags : List Char) : List (List Char) :=
  (splitComma tags).map (fun t => jsToLower (jsTrim t))

/-- A catalog product as the tag filter sees it (`fields:
"id,title,tags,variants,images"`; only `id` and `tags` feed the filter). -/
structure Product where
  id : Nat
  title : String
  tags : List Char
deriving DecidableEq, Repr

/-- The per-product test of both filter variants: a product with a falsy
(empty) tag string is skipped; otherwise it is retained exactly when the
single lowercased season tag occurs verbatim in its normalized tag list
(`tags.includes(tagLower)`). -/
def productMatchesTag (tagLower : List Char) (p : Product) : Bool :=
  if p.tags = [] then false
  else (normalizeTags p.tags).contains tagLower

/-- The pagination loop of `fetchProductsByTag` (src/unnamed/part_000):
pages of up to 250 products are fetched via a `since_id` cursor and the
per-product test applied to each page; the loop stops on an empty or short
page.  For a catalog served in ascending id order the page at cursor
`since_id` is the next block of 250, which this block recursion models. -/
def fetchPagesByTag (tagLower : List Char) (remaining : List Product) :
    List Product :=
  if _h : remaining.length = 0 then []
  else if _hfull : (remaining.take 250).length < 250 then
    (remaining.take 250).filter (productMatchesTag tagLower)
  else
    ((remaining.take 250).filter (productMatchesTag tagLower))
      ++ fetchPagesByTag tagLower (remaining.drop 250)
termination_by remaining.length
decreasing_by
  simp only [List.length_drop]
  simp only [List.length_take] at _hfull
  omega

/-- The discovery entry point of the snapshot route: `tag = season.trim()`
then `fetchProductsByTag(tag)` with `tagLower = tag.toLowerCase()`. -/
def discoverTaggedProducts (catalog : List Product) (season : List Char) :
    List Product :=
  fetchPagesByTag (jsToLower (jsTrim season)) catalog

theorem fetchPagesByTag_eq_filter_aux (t : List Char) :
    ∀ (n : Nat) (remaining : List Product), remaining.length ≤ n →
      fetchPagesByTag t remaining
        = remaining.filter (productMatchesTag t) := by
  intro n
  induction n with
  | zero =>
      intro l h
      have hl : l = [] := List.eq_nil_of_length_eq_zero (Nat.le_zero.mp h)
      subst hl
      simp [fetchPagesByTag]
  | succ n ih =>
      intro l h
      rw [fetchPagesByTag]
      by_cases h0 : l.length = 0
      · have hl : l = [] := List.eq_nil_of_length_eq_zero h0
        subst hl
        simp
      · rw [dif_neg h0]
        by_cases hfull : (l.take 250).length < 250
        · rw [dif_pos hfull]
          have hlen : l.length ≤ 250 := by
            simp only [List.length_take] at hfull
            omega
          rw [List.take_of_length_le hlen]
        · rw [dif_neg hfull]
          have hge : 250 ≤ l.length := by
            simp only [List.length_take] at hfull
            omega
          rw [ih (l.drop 250) (by simp only [List.length_drop]; omega)]
          rw [← List.filter_append, List.take_append_drop]

/-- The paginated walk retains exactly what the plain filter retains. -/
theorem fetchPagesByTag_eq_filter (t : List Char) (catalog : List Product) :
    fetchPagesByTag t catalog = catalog.filter (productMatchesTag t) :=
  fetchPagesByTag_eq_filter_aux t catalog.length catalog le_rfl

/-- C3 amended: discovery filters by ONE required tag — the entire
trimmed, lowercased season string.  A product is returned exactly when it
is in the catalog, its tag string is nonempty, and that single season
string occurs verbatim in its normalized tag list; a season key encoding
several comma-separated tags is never split into several requirements. -/
theorem c3_single_tag_membership (catalog : List Product)
    (season : List Char) (p : Product) :
    p ∈ discoverTaggedProducts catalog season
      ↔ p ∈ catalog ∧ p.tags ≠ []
          ∧ jsToLower (jsTrim season) ∈ normalizeTags p.tags := by
  unfold discoverTaggedProducts
  rw [fetchPagesByTag_eq_filter, List.mem_filter]
  constructor
  · rintro ⟨hmem, hmatch⟩
    refine ⟨hmem, ?_, ?_⟩
    · intro htags
      simp [productMatchesTag, htags] at hmatch
    · by_cases htags : p.tags = []
      · simp [productMatchesTag, htags] at hmatch
      · simp only [productMatchesTag, if_neg htags] at hmatch
        exact List.elem_iff.mp hmatch
  · rintro ⟨hmem, htags, htag⟩
    refine ⟨hmem, ?_⟩
    simp only [productMatchesTag, if_neg htags]
    exact List.elem_iff.mpr htag

theorem c3_witness :
    (⟨1, "Jacket", ['f', 'w', '2', '5']⟩ : Product)
        ∈ discoverTaggedProducts [⟨1, "Jacket", ['f', 'w', '2', '5']⟩]
            ['f', 'w', '2', '5']
      ↔ (⟨1, "Jacket", ['f', 'w', '2', '5']⟩ : Product)
            ∈ [(⟨1, "Jacket", ['f', 'w', '2', '5']⟩ : Product)]
          ∧ (['f', 'w', '2', '5'] : List Char) ≠ []
          ∧ jsToLower (jsTrim ['f', 'w', '2', '5'])
              ∈ normalizeTags ['f', 'w', '2', '5'] :=
  c3_single_tag_membership [⟨1, "Jacket", ['f', 'w', '2', '5']⟩]
    ['f', 'w', '2', '5'] ⟨1, "Jacket", ['f', 'w', '2', '5']⟩

/-- Modelled from the spec: the set of required tags a season key encodes
("may encode one or more required tags, e.g. FW25, MEN"), normalized the
same way product tags are. -/
def specRequiredTags (season : List Char) : List (List Char) :=
  normalizeTags season

/-- C3 counterexample: for the two-tag season key "FW25, MEN" the required
tag set is exactly the normalized tag set of the product tagged
"FW25, MEN" — so the product carries every required tag — yet discovery
returns nothing, because the whole season string "fw25, men" is matched as
one single tag and is not an element of the tag list. -/
theorem c3_counterexample :
    specRequiredTags ['F', 'W', '2', '5', ',', ' ', 'M', 'E', 'N']
      = [['f', 'w', '2', '5'], ['m', 'e', 'n']]
    ∧ normalizeTags ['F', 'W', '2', '5', ',', ' ', 'M', 'E', 'N']
      = [['f', 'w', '2', '5'], ['m', 'e', 'n']]
    ∧ discoverTaggedProducts
        [⟨1, "Jacket", ['F', 'W', '2', '5', ',', ' ', 'M', 'E', 'N']⟩]
        ['F', 'W', '2', '5', ',', ' ', 'M', 'E', 'N']
      = [] := by
  refine ⟨by decide, by decide, ?_⟩
  unfold discoverTaggedProducts
  rw [fetchPagesByTag_eq_filter]
  decide

end TauxDeSortie
